import Mathlib

/-!
Verification of the users CRUD service (Go repository `api-test`).

The embedding below mirrors the application code:
  * `model.User`            -> `User`
  * `internal/cache/redis.go`   (`cache.Client`)      -> `Cache` with `Get` / `Set2` / `Delete`
  * `internal/service/user_service.go` (`UserService`) -> `UserService.GetAll` / `GetByID` / `Create`
  * `internal/handler` (`UserHandler`)                 -> `UserHandler.GetAll` / `GetByID` / `Create`

External effects are made explicit:
  * the relational store is a `DB` value (rows plus the next serial identifier);
  * the Redis cache is an association list from keys to stored payloads;
  * each fallible external call takes an explicit outcome argument
    (`ok : Bool` for cache calls, `Option String` for the insert error),
    mirroring the Go code's treatment of the returned `error` value;
  * wall-clock time (`time.Now()`) is an explicit `Nat` argument.
-/

/-- Model of `model.User`: identifier, name, email and the two timestamps.
Timestamps (`time.Time`) are modelled as natural numbers. -/
structure User where
  ID : Nat
  Name : String
  Email : String
  CreatedAt : Nat
  UpdatedAt : Nat
deriving DecidableEq, Repr

/-- Modelled from the spec: JSON payloads held by the cache. `encoding/json`
is external to the repository; a stored payload is either the serialization
of a user list (`json.Marshal` of `[]model.User`), of a single user record,
or an arbitrary string that deserializes as neither (the spec's
"deserialize failure" case). -/
inductive CacheVal where
  | usersVal : List User → CacheVal
  | userVal : User → CacheVal
  | garbage : CacheVal
deriving DecidableEq, Repr

/-- Modelled from the spec: `json.Unmarshal` of a cached payload into
`[]model.User`; succeeds exactly on the serialization of a user list
(round-trip property of `encoding/json`). -/
def decodeUsers : CacheVal → Option (List User)
  | CacheVal.usersVal us => some us
  | _ => none

/-- Modelled from the spec: `json.Unmarshal` of a cached payload into a
single `model.User`; succeeds exactly on the serialization of one record. -/
def decodeUser : CacheVal → Option User
  | CacheVal.userVal u => some u
  | _ => none

/-- Model of the Redis key space reachable through `cache.Client`: an
association list from string keys to stored payloads. -/
structure Cache where
  entries : List (String × CacheVal)
deriving DecidableEq, Repr

namespace Cache

/-- Current value stored under a key, if any. -/
def lookup (c : Cache) (k : String) : Option CacheVal :=
  (c.entries.find? (fun p => p.1 == k)).map (fun p => p.2)

/-- Model of `cache.Client.Get`. In Go it returns `(string, error)` and the
callers only distinguish `err == nil`; both a miss (`redis.Nil`) and a
connectivity failure are non-nil errors, so the outcome is an `Option`:
`ok = false` models a failed round trip. -/
def Get (c : Cache) (ok : Bool) (k : String) : Option CacheVal :=
  if ok then c.lookup k else none

/-- Model of `cache.Client.Set`: stores the value under the key when the
round trip succeeds (`ok = true`), otherwise leaves the cache unchanged.
The TTL argument of the Go method has no effect on the stored value itself
and is not modelled. -/
def Set2 (c : Cache) (ok : Bool) (k : String) (v : CacheVal) : Cache :=
  if ok then ⟨(k, v) :: c.entries.filter (fun p => p.1 != k)⟩ else c

/-- Model of `cache.Client.Delete` on a single key: removes the key when the
round trip succeeds, otherwise leaves the cache unchanged. -/
def Delete (c : Cache) (ok : Bool) (k : String) : Cache :=
  if ok then ⟨c.entries.filter (fun p => p.1 != k)⟩ else c

end Cache

/-- Model of the `users` table: the stored rows plus the next value of the
serial identifier sequence (PostgreSQL assigns identifiers monotonically). -/
structure DB where
  rows : List User
  nextId : Nat
deriving DecidableEq, Repr

/-- Insertion step of sorting by identifier. -/
def insertById (u : User) : List User → List User
  | [] => [u]
  | v :: vs => if u.ID ≤ v.ID then u :: v :: vs else v :: insertById u vs

/-- Sort a row list by identifier, modelling `ORDER BY id`. -/
def sortById : List User → List User
  | [] => []
  | u :: us => insertById u (sortById us)

namespace DB

/-- Modelled from the spec: the store query
`SELECT id, name, email, created_at, updated_at FROM users ORDER BY id`
(the SQL engine is external to the repository): all rows, ordered by
identifier. -/
def selectAll (db : DB) : List User :=
  sortById db.rows

/-- Modelled from the spec: the store query
`SELECT ... FROM users WHERE id = $1` with a string parameter (the SQL
engine is external to the repository): the first row whose identifier
matches the given decimal string, if any. -/
def selectById (db : DB) (id : String) : Option User :=
  db.rows.find? (fun r => toString r.ID == id)

/-- Modelled from the spec: the store statement
`INSERT INTO users (name, email, created_at, updated_at) VALUES ($1,$2,$3,$4)
RETURNING id`: appends a row carrying the next serial identifier and the
given timestamps, and returns that store-assigned identifier. -/
def insert (db : DB) (name email : String) (now : Nat) : DB × Nat :=
  (⟨db.rows ++ [⟨db.nextId, name, email, now, now⟩], db.nextId + 1⟩, db.nextId)

end DB

/-- A Go slice of users as the service returns it: `none` is the nil slice
(which `encoding/json` serializes as `null`), `some` a non-nil slice. -/
def GoSlice : Type := Option (List User)

instance : DecidableEq GoSlice := by
  unfold GoSlice
  infer_instance

/-- Model of Go `len` on a `[]model.User` slice (`len(nil) = 0`). -/
def goLen : GoSlice → Nat
  | none => 0
  | some us => us.length

namespace UserService

/-- Model of `UserService.GetAll`: try the cache key `all_users` first; on a
hit that deserializes, return it; otherwise query the store, cache the rows
for five minutes when the result set is non-empty, and return the rows.
`getOk` / `setOk` are the outcomes of the two cache round trips. Returns the
user slice together with the resulting cache state. -/
def GetAll (db : DB) (c : Cache) (getOk setOk : Bool) : GoSlice × Cache :=
  match (c.Get getOk "all_users").bind decodeUsers with
  | some us => (some us, c)
  | none =>
    let rows := db.selectAll
    let users : GoSlice := if rows.isEmpty then none else some rows
    if goLen users > 0 then
      (users, c.Set2 setOk "all_users" (CacheVal.usersVal rows))
    else (users, c)

/-- Model of `UserService.GetByID`: require a non-empty identifier, try the
cache key `user:<id>`, fall back to the store; a missing row is the error
`user not found` (from `sql.ErrNoRows`), a found row is cached for ten
minutes. Returns the outcome together with the resulting cache state. -/
def GetByID (db : DB) (c : Cache) (getOk setOk : Bool) (id : String) :
    Except String User × Cache :=
  if id == "" then (Except.error "id parameter is required", c)
  else
    match (c.Get getOk ("user:" ++ id)).bind decodeUser with
    | some u => (Except.ok u, c)
    | none =>
      match db.selectById id with
      | none => (Except.error "user not found", c)
      | some u => (Except.ok u, c.Set2 setOk ("user:" ++ id) (CacheVal.userVal u))

/-- Model of `UserService.Create`: reject an empty name or email before any
store access; otherwise insert the row with `now` as both timestamps,
reflect the assigned identifier and the timestamps onto the record, and
delete the `all_users` cache key. `insErr` is the outcome of the insert
round trip (`some e` models a store error with text `e`, wrapped as
`failed to create user: <e>`), `delOk` the outcome of the cache delete.
Returns the outcome together with the resulting store and cache states. -/
def Create (db : DB) (c : Cache) (insErr : Option String) (delOk : Bool)
    (now : Nat) (u : User) : Except String User × DB × Cache :=
  if u.Name == "" || u.Email == "" then
    (Except.error "name and email are required", db, c)
  else
    match insErr with
    | some e => (Except.error ("failed to create user: " ++ e), db, c)
    | none =>
      let r := db.insert u.Name u.Email now
      let u2 : User := { u with ID := r.2, CreatedAt := now, UpdatedAt := now }
      (Except.ok u2, r.1, c.Delete delOk "all_users")

end UserService

/-- JSON body of an HTTP response, as the handlers produce it: an array of
user records, a single record, an object with a single `error` field, or
the `null` that `encoding/json` emits for a nil slice. -/
inductive JsonBody where
  | usersArr : List User → JsonBody
  | userObj : User → JsonBody
  | errObj : String → JsonBody
  | nullVal : JsonBody
deriving DecidableEq, Repr

/-- Model of `json.NewEncoder(w).Encode(users)` on a `[]model.User` slice:
a nil slice serializes as `null`, a non-nil slice as an array. -/
def goEncodeSlice : GoSlice → JsonBody
  | none => JsonBody.nullVal
  | some us => JsonBody.usersArr us

/-- An HTTP response: status code and JSON body. The `Content-Type` header
is set unconditionally by every handler and is not modelled. -/
structure HttpResponse where
  status : Nat
  body : JsonBody
deriving DecidableEq, Repr

namespace UserHandler

/-- Model of `UserHandler.GetAll`: invoke the service; encode an explicit
empty array when the slice is empty, else encode the slice. The service
model cannot fail, so the handler's 500 branch is unreachable here and the
status is always 200. -/
def GetAll (db : DB) (c : Cache) (getOk setOk : Bool) : HttpResponse × Cache :=
  let r := UserService.GetAll db c getOk setOk
  if goLen r.1 == 0 then ({ status := 200, body := JsonBody.usersArr [] }, r.2)
  else ({ status := 200, body := goEncodeSlice r.1 }, r.2)

/-- Model of `UserHandler.GetByID`: an empty `id` query parameter (Go's
`Query().Get` yields the empty string when the parameter is absent) is a
400; a service error whose text is exactly `user not found` is a 404 with
the literal error body; any other service error is a 500 carrying the error
text; success is a 200 with the record. -/
def GetByID (db : DB) (c : Cache) (getOk setOk : Bool) (id : String) :
    HttpResponse × Cache :=
  if id == "" then
    ({ status := 400, body := JsonBody.errObj "id parameter is required" }, c)
  else
    match UserService.GetByID db c getOk setOk id with
    | (Except.error e, c2) =>
      if e == "user not found" then
        ({ status := 404, body := JsonBody.errObj "user not found" }, c2)
      else ({ status := 500, body := JsonBody.errObj e }, c2)
    | (Except.ok u, c2) => ({ status := 200, body := JsonBody.userObj u }, c2)

/-- Model of `UserHandler.Create`: `body` is the outcome of decoding the
request body into a `model.User` (`none` models a `json.Decode` failure,
which yields a 400 with the literal `invalid request body`); ANY error from
`UserService.Create` yields a 400 carrying the error text (the code has no
500 branch on this path); success yields a 201 with the populated record.
Returns the response together with the resulting store and cache states. -/
def Create (db : DB) (c : Cache) (insErr : Option String) (delOk : Bool)
    (now : Nat) (body : Option User) : HttpResponse × DB × Cache :=
  match body with
  | none => ({ status := 400, body := JsonBody.errObj "invalid request body" }, db, c)
  | some u =>
    match UserService.Create db c insErr delOk now u with
    | (Except.error e, db2, c2) =>
      ({ status := 400, body := JsonBody.errObj e }, db2, c2)
    | (Except.ok u2, db2, c2) =>
      ({ status := 201, body := JsonBody.userObj u2 }, db2, c2)

end UserHandler

/-- The slice the service returns when it reads through to the store on the
list path: the nil slice for an empty row set, else the ordered rows. -/
def storeSlice (db : DB) : GoSlice :=
  if db.selectAll.isEmpty then none else some db.selectAll

/-- The outcome the service produces when it reads through to the store on
the get-by-identifier path: `user not found` for a missing row, else the
row. -/
def storeUser (db : DB) (id : String) : Except String User :=
  match db.selectById id with
  | none => Except.error "user not found"
  | some u => Except.ok u

/-! ### Helper lemmas -/

/-- Finding a key among entries filtered to exclude that key fails. -/
theorem find?_filter_bne (k : String) (l : List (String × CacheVal)) :
    (l.filter (fun p => p.1 != k)).find? (fun p => p.1 == k) = none := by
  rw [List.find?_eq_none]
  intro p hp
  have h := (List.mem_filter.mp hp).2
  simp only [bne_iff_ne, ne_eq] at h
  simp [h]

/-- Filtering out a different key does not change a key search. -/
theorem find?_filter_bne_other (k k' : String) (h : k' ≠ k)
    (l : List (String × CacheVal)) :
    (l.filter (fun p => p.1 != k)).find? (fun p => p.1 == k') =
      l.find? (fun p => p.1 == k') := by
  induction l with
  | nil => rfl
  | cons p l ih =>
    rw [List.filter_cons]
    by_cases hp : p.1 = k
    · have hb : ¬((p.1 != k) = true) := by simp [hp]
      have hq : (p.1 == k') = false := by
        rw [hp]
        exact beq_eq_false_iff_ne.mpr (Ne.symm h)
      rw [if_neg hb]
      simp only [List.find?_cons, hq]
      exact ih
    · have hb : (p.1 != k) = true := by simp [hp]
      rw [if_pos hb]
      by_cases hq : p.1 = k'
      · have hq' : (p.1 == k') = true := by simp [hq]
        simp only [List.find?_cons, hq']
      · have hq' : (p.1 == k') = false := beq_eq_false_iff_ne.mpr hq
        simp only [List.find?_cons, hq']
        exact ih

/-- A successful delete removes the key. -/
theorem Cache.lookup_Delete_self (c : Cache) (k : String) :
    (c.Delete true k).lookup k = none := by
  simp [Cache.Delete, Cache.lookup, find?_filter_bne]

/-- A delete, successful or not, leaves every other key unchanged. -/
theorem Cache.lookup_Delete_other (c : Cache) (ok : Bool) (k k' : String)
    (h : k' ≠ k) : (c.Delete ok k).lookup k' = c.lookup k' := by
  cases ok with
  | false => rfl
  | true => simp [Cache.Delete, Cache.lookup, find?_filter_bne_other k k' h]

/-- Membership through the insertion step of the sort. -/
theorem mem_insertById (a u : User) (l : List User) :
    a ∈ insertById u l ↔ a = u ∨ a ∈ l := by
  induction l with
  | nil => simp [insertById]
  | cons v vs ih =>
    by_cases h : u.ID ≤ v.ID
    · simp [insertById, h]
    · simp [insertById, h, ih]
      tauto

/-- Sorting by identifier preserves membership. -/
theorem mem_sortById (a : User) (l : List User) :
    a ∈ sortById l ↔ a ∈ l := by
  induction l with
  | nil => simp [sortById]
  | cons u us ih => simp [sortById, mem_insertById, ih]

/-- The per-identifier cache key is never the list cache key. -/
theorem userKey_ne_allUsers (s : String) : ("user:" ++ s) ≠ "all_users" := by
  intro hcon
  have h5 : ("user:" ++ s).data = "all_users".data := by rw [hcon]
  rw [String.data_append] at h5
  simp at h5

/-- The digit accumulator of `Nat.toDigitsCore` never shrinks. -/
theorem toDigitsCore_length_ge (b : Nat) :
    ∀ (fuel n : Nat) (ds : List Char),
      ds.length ≤ (Nat.toDigitsCore b fuel n ds).length := by
  intro fuel
  induction fuel with
  | zero =>
    intro n ds
    simp [Nat.toDigitsCore]
  | succ f ih =>
    intro n ds
    simp only [Nat.toDigitsCore]
    split
    · simp
    · calc ds.length ≤ (Nat.digitChar (n % b) :: ds).length := by simp
        _ ≤ _ := ih _ _

/-- The decimal representation of a natural number is never empty. -/
theorem repr_ne_empty (n : Nat) : Nat.repr n ≠ "" := by
  unfold Nat.repr
  intro h
  have hd : (Nat.toDigits 10 n) = [] := by
    have h2 := congrArg String.data h
    simpa [List.asString] using h2
  unfold Nat.toDigits at hd
  simp only [Nat.toDigitsCore] at hd
  revert hd
  split
  · intro hd
    simp at hd
  · intro hd
    have h3 := toDigitsCore_length_ge 10 n (n / 10) [Nat.digitChar (n % 10)]
    rw [hd] at h3
    simp at h3

/-! ### Claims -/

/-- C1 (code bug in `UserHandler.Create`): at a valid request body whose
store insert fails with `connection refused`, the handler responds with
status 400 carrying the wrapped error text. The claim (and the handler's
own doc comment, which reserves 400 for invalid bodies or missing fields
and lists 500 for server errors) says such a store failure maps to 500;
the code funnels every service error into the 400 branch. -/
theorem c1_create_store_error_maps_to_400 :
    UserHandler.Create ⟨[], 1⟩ ⟨[]⟩ (some "connection refused") true 0
        (some ⟨0, "Charlie", "charlie@example.com", 0, 0⟩) =
      ({ status := 400,
         body := JsonBody.errObj "failed to create user: connection refused" },
       ⟨[], 1⟩, ⟨[]⟩) := by
  rfl

/-- C2: Create with an empty name or an empty email fails validation with
the literal error text, before any store access and before any cache
operation: the store and the cache are returned unchanged, whatever the
outcomes of the external calls would have been. -/
theorem c2_create_validation_no_store_no_cache
    (db : DB) (c : Cache) (insErr : Option String) (delOk : Bool) (now : Nat)
    (u : User) (h : u.Name = "" ∨ u.Email = "") :
    UserService.Create db c insErr delOk now u =
      (Except.error "name and email are required", db, c) := by
  unfold UserService.Create
  rcases h with h | h <;> simp [h]

/-- Witness for `c2_create_validation_no_store_no_cache` at a concrete
record with an empty name. -/
theorem c2_create_validation_no_store_no_cache_witness :
    ((User.mk 0 "" "w@x" 0 0).Name = "" ∨ (User.mk 0 "" "w@x" 0 0).Email = "") ∧
    UserService.Create ⟨[], 1⟩ ⟨[]⟩ none true 5 (User.mk 0 "" "w@x" 0 0) =
      (Except.error "name and email are required", ⟨[], 1⟩, ⟨[]⟩) :=
  ⟨Or.inl rfl,
   c2_create_validation_no_store_no_cache ⟨[], 1⟩ ⟨[]⟩ none true 5
     (User.mk 0 "" "w@x" 0 0) (Or.inl rfl)⟩

/-- C3: a successful Create of a record with non-empty name and email
returns the input record with the store-assigned identifier (non-zero,
since the serial sequence of the store is positive) and the server
timestamp reflected onto it, its created-at equal to its updated-at, and
the store gains exactly that row. -/
theorem c3_create_reflects_id_and_timestamps
    (db : DB) (c : Cache) (delOk : Bool) (now : Nat) (u : User)
    (hn : u.Name ≠ "") (he : u.Email ≠ "") (hpos : 0 < db.nextId) :
    ∃ u2, (UserService.Create db c none delOk now u).1 = Except.ok u2 ∧
      u2.ID = db.nextId ∧ u2.ID ≠ 0 ∧
      u2.CreatedAt = now ∧ u2.UpdatedAt = now ∧
      u2.CreatedAt = u2.UpdatedAt ∧
      u2.Name = u.Name ∧ u2.Email = u.Email ∧
      (UserService.Create db c none delOk now u).2.1.rows =
        db.rows ++ [⟨db.nextId, u.Name, u.Email, now, now⟩] := by
  refine ⟨{ u with ID := db.nextId, CreatedAt := now, UpdatedAt := now }, ?_⟩
  have hn' : (u.Name == "") = false := beq_eq_false_iff_ne.mpr hn
  have he' : (u.Email == "") = false := beq_eq_false_iff_ne.mpr he
  unfold UserService.Create DB.insert
  simp [hn', he', Nat.pos_iff_ne_zero.mp hpos]

/-- Witness for `c3_create_reflects_id_and_timestamps` at a concrete valid
record against a store whose serial sequence stands at 1. -/
theorem c3_create_reflects_id_and_timestamps_witness :
    ((User.mk 0 "Alice" "a@x" 0 0).Name ≠ "" ∧
     (User.mk 0 "Alice" "a@x" 0 0).Email ≠ "" ∧
     0 < (DB.mk [] 1).nextId) ∧
    (∃ u2, (UserService.Create (DB.mk [] 1) ⟨[]⟩ none true 7
              (User.mk 0 "Alice" "a@x" 0 0)).1 = Except.ok u2 ∧
      u2.ID = (DB.mk [] 1).nextId ∧ u2.ID ≠ 0 ∧
      u2.CreatedAt = 7 ∧ u2.UpdatedAt = 7 ∧
      u2.CreatedAt = u2.UpdatedAt ∧
      u2.Name = (User.mk 0 "Alice" "a@x" 0 0).Name ∧
      u2.Email = (User.mk 0 "Alice" "a@x" 0 0).Email ∧
      (UserService.Create (DB.mk [] 1) ⟨[]⟩ none true 7
          (User.mk 0 "Alice" "a@x" 0 0)).2.1.rows =
        (DB.mk [] 1).rows ++ [⟨(DB.mk [] 1).nextId, "Alice", "a@x", 7, 7⟩]) :=
  ⟨⟨by decide, by decide, by decide⟩,
   c3_create_reflects_id_and_timestamps (DB.mk [] 1) ⟨[]⟩ true 7
     (User.mk 0 "Alice" "a@x" 0 0) (by decide) (by decide) (by decide)⟩

/-- When the cache read yields nothing decodable, the list path returns the
store result. -/
theorem getAll_fst_eq_storeSlice (db : DB) (c : Cache) (getOk setOk : Bool)
    (h : (c.Get getOk "all_users").bind decodeUsers = none) :
    (UserService.GetAll db c getOk setOk).1 = storeSlice db := by
  unfold UserService.GetAll storeSlice
  rw [h]
  cases hrows : db.selectAll with
  | nil => simp [hrows, goLen]
  | cons a l => simp [hrows, goLen]

/-- When the cache read yields nothing decodable, the get-by-identifier
path returns the store result. -/
theorem getByID_fst_eq_storeUser (db : DB) (c : Cache) (getOk setOk : Bool)
    (id : String) (hid : (id == "") = false)
    (h : (c.Get getOk ("user:" ++ id)).bind decodeUser = none) :
    (UserService.GetByID db c getOk setOk id).1 = storeUser db id := by
  unfold UserService.GetByID storeUser
  simp only [hid, Bool.false_eq_true, if_false]
  rw [h]
  cases hs : db.selectById id <;> simp [hs]

/-- The outcome of the list path does not depend on the cache-write
outcome. -/
theorem getAll_fst_setOk_irrel (db : DB) (c : Cache) (getOk s1 s2 : Bool) :
    (UserService.GetAll db c getOk s1).1 = (UserService.GetAll db c getOk s2).1 := by
  unfold UserService.GetAll
  cases (c.Get getOk "all_users").bind decodeUsers with
  | some us => rfl
  | none =>
    dsimp only
    split
    · rfl
    · split <;> rfl

/-- The outcome of the get-by-identifier path does not depend on the
cache-write outcome. -/
theorem getByID_fst_setOk_irrel (db : DB) (c : Cache) (getOk s1 s2 : Bool)
    (id : String) :
    (UserService.GetByID db c getOk s1 id).1 =
      (UserService.GetByID db c getOk s2 id).1 := by
  unfold UserService.GetByID
  cases hid : id == "" with
  | true => simp [hid]
  | false =>
    simp only [hid, Bool.false_eq_true, if_false]
    cases (c.Get getOk ("user:" ++ id)).bind decodeUser with
    | some u => rfl
    | none => cases db.selectById id <;> rfl

/-- Neither the outcome nor the store state of Create depends on the
cache-delete outcome. -/
theorem create_delOk_irrel (db : DB) (c : Cache) (insErr : Option String)
    (now : Nat) (u : User) (d1 d2 : Bool) :
    (UserService.Create db c insErr d1 now u).1 =
      (UserService.Create db c insErr d2 now u).1 ∧
    (UserService.Create db c insErr d1 now u).2.1 =
      (UserService.Create db c insErr d2 now u).2.1 := by
  unfold UserService.Create
  cases hv : (u.Name == "" || u.Email == "") with
  | true => simp [hv]
  | false => cases insErr <;> simp [hv]

/-- C4: a successful Create (with the cache delete going through) leaves no
entry under the list cache key, whatever was cached before, so every
subsequent List call reads through to the store and returns a row set
containing the newly inserted row. -/
theorem c4_create_invalidates_list_cache
    (db : DB) (c : Cache) (now : Nat) (u : User)
    (hn : u.Name ≠ "") (he : u.Email ≠ "") :
    ∃ u2, (UserService.Create db c none true now u).1 = Except.ok u2 ∧
      ((UserService.Create db c none true now u).2.2).lookup "all_users" = none ∧
      ∀ getOk setOk : Bool, ∃ us,
        (UserService.GetAll (UserService.Create db c none true now u).2.1
            (UserService.Create db c none true now u).2.2 getOk setOk).1 = some us ∧
        u2 ∈ us := by
  have hn' : (u.Name == "") = false := beq_eq_false_iff_ne.mpr hn
  have he' : (u.Email == "") = false := beq_eq_false_iff_ne.mpr he
  have hcr : UserService.Create db c none true now u =
      (Except.ok (User.mk db.nextId u.Name u.Email now now),
       DB.mk (db.rows ++ [User.mk db.nextId u.Name u.Email now now]) (db.nextId + 1),
       c.Delete true "all_users") := by
    unfold UserService.Create DB.insert
    simp [hn', he']
  rw [hcr]
  refine ⟨User.mk db.nextId u.Name u.Email now now, rfl,
    Cache.lookup_Delete_self c "all_users", ?_⟩
  intro getOk setOk
  have hget : (c.Delete true "all_users").Get getOk "all_users" = none := by
    cases getOk <;> simp [Cache.Get, Cache.lookup_Delete_self]
  have hmem : User.mk db.nextId u.Name u.Email now now ∈
      sortById (db.rows ++ [User.mk db.nextId u.Name u.Email now now]) := by
    rw [mem_sortById]
    simp
  refine ⟨sortById (db.rows ++ [User.mk db.nextId u.Name u.Email now now]), ?_, hmem⟩
  have h1 := getAll_fst_eq_storeSlice
    (DB.mk (db.rows ++ [User.mk db.nextId u.Name u.Email now now]) (db.nextId + 1))
    (c.Delete true "all_users") getOk setOk (by rw [hget]; rfl)
  rw [h1]
  unfold storeSlice DB.selectAll
  have hnil : sortById (db.rows ++ [User.mk db.nextId u.Name u.Email now now]) ≠ [] :=
    List.ne_nil_of_mem hmem
  cases hb : sortById (db.rows ++ [User.mk db.nextId u.Name u.Email now now]) with
  | nil => exact absurd hb hnil
  | cons a l => simp

/-- Witness for `c4_create_invalidates_list_cache` at a concrete valid
record, with a freshly cached list entry present before the Create. -/
theorem c4_create_invalidates_list_cache_witness :
    ((User.mk 0 "Eve" "e@x" 0 0).Name ≠ "" ∧ (User.mk 0 "Eve" "e@x" 0 0).Email ≠ "") ∧
    (∃ u2, (UserService.Create (DB.mk [] 1)
              ⟨[("all_users", CacheVal.usersVal [])]⟩ none true 3
              (User.mk 0 "Eve" "e@x" 0 0)).1 = Except.ok u2 ∧
      ((UserService.Create (DB.mk [] 1) ⟨[("all_users", CacheVal.usersVal [])]⟩
          none true 3 (User.mk 0 "Eve" "e@x" 0 0)).2.2).lookup "all_users" = none ∧
      ∀ getOk setOk : Bool, ∃ us,
        (UserService.GetAll
            (UserService.Create (DB.mk [] 1) ⟨[("all_users", CacheVal.usersVal [])]⟩
              none true 3 (User.mk 0 "Eve" "e@x" 0 0)).2.1
            (UserService.Create (DB.mk [] 1) ⟨[("all_users", CacheVal.usersVal [])]⟩
              none true 3 (User.mk 0 "Eve" "e@x" 0 0)).2.2 getOk setOk).1 = some us ∧
        u2 ∈ us) :=
  ⟨⟨by decide, by decide⟩,
   c4_create_invalidates_list_cache (DB.mk [] 1)
     ⟨[("all_users", CacheVal.usersVal [])]⟩ 3 (User.mk 0 "Eve" "e@x" 0 0)
     (by decide) (by decide)⟩

/-- C5: an identifier that matches no store row and has no cached entry
makes the service yield exactly the not-found error, and the handler
respond 404 with the literal error body, the cache left unchanged. -/
theorem c5_get_missing_user_not_found_404
    (db : DB) (c : Cache) (getOk setOk : Bool) (id : String)
    (hid : id ≠ "") (hc : c.lookup ("user:" ++ id) = none)
    (hdb : db.selectById id = none) :
    (UserService.GetByID db c getOk setOk id).1 = Except.error "user not found" ∧
    UserHandler.GetByID db c getOk setOk id =
      ({ status := 404, body := JsonBody.errObj "user not found" }, c) := by
  have hid' : (id == "") = false := beq_eq_false_iff_ne.mpr hid
  have hget : c.Get getOk ("user:" ++ id) = none := by
    cases getOk <;> simp [Cache.Get, hc]
  have hsvc : UserService.GetByID db c getOk setOk id =
      (Except.error "user not found", c) := by
    unfold UserService.GetByID
    simp [hid', hget, hdb]
  constructor
  · rw [hsvc]
  · unfold UserHandler.GetByID
    simp [hid', hsvc]

/-- Witness for `c5_get_missing_user_not_found_404` at identifier 999
against a store holding only row 1. -/
theorem c5_get_missing_user_not_found_404_witness :
    (("999" : String) ≠ "" ∧
     (Cache.mk []).lookup ("user:" ++ "999") = none ∧
     (DB.mk [User.mk 1 "A" "a@x" 0 0] 2).selectById "999" = none) ∧
    ((UserService.GetByID (DB.mk [User.mk 1 "A" "a@x" 0 0] 2) ⟨[]⟩ true true "999").1 =
        Except.error "user not found" ∧
      UserHandler.GetByID (DB.mk [User.mk 1 "A" "a@x" 0 0] 2) ⟨[]⟩ true true "999" =
        ({ status := 404, body := JsonBody.errObj "user not found" }, ⟨[]⟩)) :=
  ⟨⟨by decide, by decide, by decide⟩,
   c5_get_missing_user_not_found_404 (DB.mk [User.mk 1 "A" "a@x" 0 0] 2) ⟨[]⟩
     true true "999" (by decide) (by decide) (by decide)⟩

/-- C7: a List call against an empty store with no cached list entry
responds 200 with an explicit empty array (not the null of a nil slice),
and writes nothing to the cache. -/
theorem c7_list_empty_store_returns_empty_array
    (n : Nat) (c : Cache) (getOk setOk : Bool)
    (hc : c.lookup "all_users" = none) :
    UserHandler.GetAll (DB.mk [] n) c getOk setOk =
      ({ status := 200, body := JsonBody.usersArr [] }, c) := by
  have hget : c.Get getOk "all_users" = none := by
    cases getOk <;> simp [Cache.Get, hc]
  have hs : UserService.GetAll (DB.mk [] n) c getOk setOk = (none, c) := by
    unfold UserService.GetAll
    rw [hget]
    simp [DB.selectAll, sortById, goLen]
  unfold UserHandler.GetAll
  simp [hs, goLen]

/-- Witness for `c7_list_empty_store_returns_empty_array` on a fresh store
and an empty cache. -/
theorem c7_list_empty_store_returns_empty_array_witness :
    ((Cache.mk []).lookup "all_users" = none) ∧
    UserHandler.GetAll (DB.mk [] 1) ⟨[]⟩ true true =
      ({ status := 200, body := JsonBody.usersArr [] }, ⟨[]⟩) :=
  ⟨by decide, c7_list_empty_store_returns_empty_array 1 ⟨[]⟩ true true (by decide)⟩

/-- C9: the Create handler's outcome depends only on the name and email of
the decoded request body: two bodies equal on name and email (differing
arbitrarily in identifier or timestamps) produce the same response, the
same store state and the same cache state. -/
theorem c9_create_ignores_client_id_and_timestamps
    (db : DB) (c : Cache) (insErr : Option String) (delOk : Bool) (now : Nat)
    (u1 u2 : User) (hn : u1.Name = u2.Name) (he : u1.Email = u2.Email) :
    UserHandler.Create db c insErr delOk now (some u1) =
      UserHandler.Create db c insErr delOk now (some u2) := by
  have h : UserService.Create db c insErr delOk now u1 =
      UserService.Create db c insErr delOk now u2 := by
    unfold UserService.Create DB.insert
    rw [hn, he]
  simp only [UserHandler.Create, h]

/-- Witness for `c9_create_ignores_client_id_and_timestamps` at two bodies
that differ only in identifier and timestamps. -/
theorem c9_create_ignores_client_id_and_timestamps_witness :
    ((User.mk 5 "Bob" "b@c" 11 12).Name = (User.mk 99 "Bob" "b@c" 0 7).Name ∧
     (User.mk 5 "Bob" "b@c" 11 12).Email = (User.mk 99 "Bob" "b@c" 0 7).Email) ∧
    UserHandler.Create (DB.mk [] 1) ⟨[]⟩ none true 4 (some (User.mk 5 "Bob" "b@c" 11 12)) =
      UserHandler.Create (DB.mk [] 1) ⟨[]⟩ none true 4 (some (User.mk 99 "Bob" "b@c" 0 7)) :=
  ⟨⟨rfl, rfl⟩,
   c9_create_ignores_client_id_and_timestamps (DB.mk [] 1) ⟨[]⟩ none true 4
     (User.mk 5 "Bob" "b@c" 11 12) (User.mk 99 "Bob" "b@c" 0 7) rfl rfl⟩

/-- C10: on every path of the Create handler (undecodable body, validation
failure, insert failure, success) every cache key other than `all_users`
is left exactly as it was; in particular no `user:<id>` entry is written
or deleted. -/
theorem c10_create_cache_frame
    (db : DB) (c : Cache) (insErr : Option String) (delOk : Bool) (now : Nat)
    (body : Option User) (k : String) (hk : k ≠ "all_users") :
    ((UserHandler.Create db c insErr delOk now body).2.2).lookup k = c.lookup k := by
  unfold UserHandler.Create UserService.Create DB.insert
  cases body with
  | none => rfl
  | some u =>
    cases hv : (u.Name == "" || u.Email == "") with
    | true => simp [hv]
    | false =>
      cases insErr with
      | some e => simp [hv]
      | none => simp [hv, Cache.lookup_Delete_other c delOk "all_users" k hk]

/-- Witness for `c10_create_cache_frame`: a successful Create leaves a
pre-existing per-identifier entry untouched. -/
theorem c10_create_cache_frame_witness :
    (("user:1" : String) ≠ "all_users") ∧
    ((UserHandler.Create (DB.mk [] 2) ⟨[("user:1", CacheVal.garbage)]⟩ none true 9
        (some (User.mk 0 "Zoe" "z@x" 0 0))).2.2).lookup "user:1" =
      (Cache.mk [("user:1", CacheVal.garbage)]).lookup "user:1" :=
  ⟨by decide,
   c10_create_cache_frame (DB.mk [] 2) ⟨[("user:1", CacheVal.garbage)]⟩ none true 9
     (some (User.mk 0 "Zoe" "z@x" 0 0)) "user:1" (by decide)⟩

/-- C6: cache failures never surface as request failures. A failed cache
round trip on the list or get-by-identifier read path, or a cached payload
that fails to deserialize, makes the service return exactly the
read-through store result; and the outcome (and store state) of every
operation is independent of the success of its cache write or cache
delete. -/
theorem c6_cache_failures_never_surface
    (db : DB) (c : Cache) (getOk setOk : Bool) (insErr : Option String)
    (now : Nat) (u : User) (id : String) (v w : CacheVal)
    (hid : id ≠ "")
    (hv : c.lookup "all_users" = some v) (hvdec : decodeUsers v = none)
    (hw : c.lookup ("user:" ++ id) = some w) (hwdec : decodeUser w = none) :
    (UserService.GetAll db c false setOk).1 = storeSlice db ∧
    (UserService.GetAll db c true setOk).1 = storeSlice db ∧
    (UserService.GetByID db c false setOk id).1 = storeUser db id ∧
    (UserService.GetByID db c true setOk id).1 = storeUser db id ∧
    (UserService.GetAll db c getOk false).1 = (UserService.GetAll db c getOk true).1 ∧
    (UserService.GetByID db c getOk false id).1 =
      (UserService.GetByID db c getOk true id).1 ∧
    (UserService.Create db c insErr false now u).1 =
      (UserService.Create db c insErr true now u).1 ∧
    (UserService.Create db c insErr false now u).2.1 =
      (UserService.Create db c insErr true now u).2.1 := by
  have hid' : (id == "") = false := beq_eq_false_iff_ne.mpr hid
  refine ⟨getAll_fst_eq_storeSlice db c false setOk rfl,
    getAll_fst_eq_storeSlice db c true setOk (by simp [Cache.Get, hv, hvdec]),
    getByID_fst_eq_storeUser db c false setOk id hid' rfl,
    getByID_fst_eq_storeUser db c true setOk id hid' (by simp [Cache.Get, hw, hwdec]),
    getAll_fst_setOk_irrel db c getOk false true,
    getByID_fst_setOk_irrel db c getOk false true id,
    (create_delOk_irrel db c insErr now u false true).1,
    (create_delOk_irrel db c insErr now u false true).2⟩

/-- Witness for `c6_cache_failures_never_surface`: a cache holding
undecodable garbage under both keys, over a one-row store. -/
theorem c6_cache_failures_never_surface_witness :
    (("1" : String) ≠ "" ∧
     (Cache.mk [("all_users", CacheVal.garbage), ("user:1", CacheVal.garbage)]).lookup
        "all_users" = some CacheVal.garbage ∧
     decodeUsers CacheVal.garbage = none ∧
     (Cache.mk [("all_users", CacheVal.garbage), ("user:1", CacheVal.garbage)]).lookup
        ("user:" ++ "1") = some CacheVal.garbage ∧
     decodeUser CacheVal.garbage = none) ∧
    ((UserService.GetAll (DB.mk [User.mk 1 "A" "a@x" 0 0] 2)
        ⟨[("all_users", CacheVal.garbage), ("user:1", CacheVal.garbage)]⟩ false true).1 =
        storeSlice (DB.mk [User.mk 1 "A" "a@x" 0 0] 2) ∧
     (UserService.GetAll (DB.mk [User.mk 1 "A" "a@x" 0 0] 2)
        ⟨[("all_users", CacheVal.garbage), ("user:1", CacheVal.garbage)]⟩ true true).1 =
        storeSlice (DB.mk [User.mk 1 "A" "a@x" 0 0] 2) ∧
     (UserService.GetByID (DB.mk [User.mk 1 "A" "a@x" 0 0] 2)
        ⟨[("all_users", CacheVal.garbage), ("user:1", CacheVal.garbage)]⟩ false true "1").1 =
        storeUser (DB.mk [User.mk 1 "A" "a@x" 0 0] 2) "1" ∧
     (UserService.GetByID (DB.mk [User.mk 1 "A" "a@x" 0 0] 2)
        ⟨[("all_users", CacheVal.garbage), ("user:1", CacheVal.garbage)]⟩ true true "1").1 =
        storeUser (DB.mk [User.mk 1 "A" "a@x" 0 0] 2) "1" ∧
     (UserService.GetAll (DB.mk [User.mk 1 "A" "a@x" 0 0] 2)
        ⟨[("all_users", CacheVal.garbage), ("user:1", CacheVal.garbage)]⟩ true false).1 =
       (UserService.GetAll (DB.mk [User.mk 1 "A" "a@x" 0 0] 2)
        ⟨[("all_users", CacheVal.garbage), ("user:1", CacheVal.garbage)]⟩ true true).1 ∧
     (UserService.GetByID (DB.mk [User.mk 1 "A" "a@x" 0 0] 2)
        ⟨[("all_users", CacheVal.garbage), ("user:1", CacheVal.garbage)]⟩ true false "1").1 =
       (UserService.GetByID (DB.mk [User.mk 1 "A" "a@x" 0 0] 2)
        ⟨[("all_users", CacheVal.garbage), ("user:1", CacheVal.garbage)]⟩ true true "1").1 ∧
     (UserService.Create (DB.mk [User.mk 1 "A" "a@x" 0 0] 2)
        ⟨[("all_users", CacheVal.garbage), ("user:1", CacheVal.garbage)]⟩ none false 4
        (User.mk 0 "N" "n@x" 0 0)).1 =
       (UserService.Create (DB.mk [User.mk 1 "A" "a@x" 0 0] 2)
        ⟨[("all_users", CacheVal.garbage), ("user:1", CacheVal.garbage)]⟩ none true 4
        (User.mk 0 "N" "n@x" 0 0)).1 ∧
     (UserService.Create (DB.mk [User.mk 1 "A" "a@x" 0 0] 2)
        ⟨[("all_users", CacheVal.garbage), ("user:1", CacheVal.garbage)]⟩ none false 4
        (User.mk 0 "N" "n@x" 0 0)).2.1 =
       (UserService.Create (DB.mk [User.mk 1 "A" "a@x" 0 0] 2)
        ⟨[("all_users", CacheVal.garbage), ("user:1", CacheVal.garbage)]⟩ none true 4
        (User.mk 0 "N" "n@x" 0 0)).2.1) :=
  ⟨⟨by decide, by decide, by decide, by decide, by decide⟩,
   c6_cache_failures_never_surface (DB.mk [User.mk 1 "A" "a@x" 0 0] 2)
     ⟨[("all_users", CacheVal.garbage), ("user:1", CacheVal.garbage)]⟩ true true none 4
     (User.mk 0 "N" "n@x" 0 0) "1" CacheVal.garbage CacheVal.garbage
     (by decide) (by decide) (by decide) (by decide) (by decide)⟩

/-- C8: a record written by a successful Create and read back by
get-by-identifier under the assigned identifier, with no live cache entry
for that identifier, carries the same name and email as the input. -/
theorem c8_create_then_get_roundtrip
    (db : DB) (c : Cache) (now : Nat) (u : User) (delOk getOk setOk : Bool)
    (hn : u.Name ≠ "") (he : u.Email ≠ "")
    (hfresh : db.selectById (toString db.nextId) = none)
    (hcache : c.lookup ("user:" ++ toString db.nextId) = none) :
    ∃ u2, (UserService.Create db c none delOk now u).1 = Except.ok u2 ∧
      ∃ u3, (UserService.GetByID (UserService.Create db c none delOk now u).2.1
          (UserService.Create db c none delOk now u).2.2 getOk setOk
          (toString u2.ID)).1 = Except.ok u3 ∧
        u3.Name = u.Name ∧ u3.Email = u.Email := by
  have hn' : (u.Name == "") = false := beq_eq_false_iff_ne.mpr hn
  have he' : (u.Email == "") = false := beq_eq_false_iff_ne.mpr he
  have hcr : UserService.Create db c none delOk now u =
      (Except.ok (User.mk db.nextId u.Name u.Email now now),
       DB.mk (db.rows ++ [User.mk db.nextId u.Name u.Email now now]) (db.nextId + 1),
       c.Delete delOk "all_users") := by
    unfold UserService.Create DB.insert
    simp [hn', he']
  rw [hcr]
  have hid' : ((toString db.nextId) == "") = false :=
    beq_eq_false_iff_ne.mpr (repr_ne_empty db.nextId)
  have hclookup :
      (c.Delete delOk "all_users").lookup ("user:" ++ toString db.nextId) = none := by
    rw [Cache.lookup_Delete_other c delOk "all_users" _
      (userKey_ne_allUsers (toString db.nextId))]
    exact hcache
  have hget :
      (c.Delete delOk "all_users").Get getOk ("user:" ++ toString db.nextId) = none := by
    cases getOk <;> simp [Cache.Get, hclookup]
  have hsel :
      (DB.mk (db.rows ++ [User.mk db.nextId u.Name u.Email now now])
        (db.nextId + 1)).selectById (toString db.nextId) =
      some (User.mk db.nextId u.Name u.Email now now) := by
    unfold DB.selectById at hfresh ⊢
    simp [List.find?_append, hfresh]
  refine ⟨User.mk db.nextId u.Name u.Email now now, rfl,
    User.mk db.nextId u.Name u.Email now now, ?_, rfl, rfl⟩
  unfold UserService.GetByID
  simp [hid', hget, hsel]

/-- Witness for `c8_create_then_get_roundtrip` on a fresh store and empty
cache. -/
theorem c8_create_then_get_roundtrip_witness :
    ((User.mk 0 "Ann" "a@b" 0 0).Name ≠ "" ∧
     (User.mk 0 "Ann" "a@b" 0 0).Email ≠ "" ∧
     (DB.mk [] 1).selectById (toString (DB.mk [] 1).nextId) = none ∧
     (Cache.mk []).lookup ("user:" ++ toString (DB.mk [] 1).nextId) = none) ∧
    (∃ u2, (UserService.Create (DB.mk [] 1) ⟨[]⟩ none true 9
              (User.mk 0 "Ann" "a@b" 0 0)).1 = Except.ok u2 ∧
      ∃ u3, (UserService.GetByID
          (UserService.Create (DB.mk [] 1) ⟨[]⟩ none true 9
            (User.mk 0 "Ann" "a@b" 0 0)).2.1
          (UserService.Create (DB.mk [] 1) ⟨[]⟩ none true 9
            (User.mk 0 "Ann" "a@b" 0 0)).2.2 true true
          (toString u2.ID)).1 = Except.ok u3 ∧
        u3.Name = (User.mk 0 "Ann" "a@b" 0 0).Name ∧
        u3.Email = (User.mk 0 "Ann" "a@b" 0 0).Email) :=
  ⟨⟨by decide, by decide, by decide, by decide⟩,
   c8_create_then_get_roundtrip (DB.mk [] 1) ⟨[]⟩ 9 (User.mk 0 "Ann" "a@b" 0 0)
     true true true (by decide) (by decide) (by decide) (by decide)⟩
